import Mathlib

/-!
Shallow embedding of the wake-word detection server (`src/test/server.py`)
and proofs about the claims of its specification.

Modelling conventions:
* Python floats (scores, clock readings, thresholds) are modelled as exact
  rationals `ℚ`; 16-bit PCM samples are modelled as `Int` values.
* Bytes of an inbound websocket message are modelled as `Nat` values.
* Reads of `asyncio.get_event_loop().time()` are modelled as consuming values
  from a clock stream `ℕ → ℚ` supplied by the environment; success of
  `websocket.send_json` is likewise an environment-supplied stream.
* Fallible calls (`np.frombuffer`, `model.predict`, the session loop) return
  `Except`; an uncaught Python exception is the `Except.error` case.
-/

namespace WakeWord

/-- Audio settings of `server.py`: `CHUNK_SIZE = 1280` (80 ms at 16 kHz). -/
def CHUNK_SIZE : Nat := 1280

/-- `THRESHOLD = 0.35`, detection threshold for the moving average. -/
def THRESHOLD : ℚ := 35 / 100

/-- `HIGH_THRESHOLD = 0.5`, threshold for single-chunk detection. -/
def HIGH_THRESHOLD : ℚ := 5 / 10

/-- `DEBOUNCE_SECONDS = 1.5` inside `websocket_endpoint`. -/
def DEBOUNCE_SECONDS : ℚ := 15 / 10

/-- `MAX_WINDOW_SIZE = 5`, bound on the score window. -/
def MAX_WINDOW_SIZE : Nat := 5

/-- Python `int(x)` on a float truncates toward zero. -/
def ratTrunc (q : ℚ) : Int := if 0 ≤ q then ⌊q⌋ else ⌈q⌉

/-- Round a rational to the nearest integer, ties to even
(the rounding used by Python's builtin `round`). -/
def roundHalfEven (q : ℚ) : Int :=
  let f := ⌊q⌋
  let r := q - f
  if r < 1 / 2 then f
  else if 1 / 2 < r then f + 1
  else if f % 2 = 0 then f else f + 1

/-- Python `round(x, 3)`: round to three decimal places. -/
def round3 (q : ℚ) : ℚ := (roundHalfEven (q * 1000) : ℚ) / 1000

/-! ### Score smoother (lines 318-324 of `server.py`)

`score_window.append(score)`; `if len(score_window) > MAX_WINDOW_SIZE:
score_window.pop(0)`; the moving average is
`sum(score_window) / len(score_window) if score_window else 0`. -/

/-- Push one score onto the sliding window, evicting the oldest entry when
the window grows past `MAX_WINDOW_SIZE`. -/
def pushScore (w : List ℚ) (s : ℚ) : List ℚ :=
  let w' := w ++ [s]
  if MAX_WINDOW_SIZE < w'.length then w'.drop 1 else w'

/-- Moving average of the window, `0` for an empty window. -/
def avgScore (w : List ℚ) : ℚ :=
  if w.isEmpty then 0 else w.sum / w.length

/-! ### Detection decider (lines 314-364 of `server.py`) -/

/-- Per-session detection state: the shared sliding score window and the
shared `last_detection_time` (initialized to `0`). -/
structure DetState where
  window : List ℚ
  lastDet : ℚ
deriving Repr, DecidableEq

/-- State at connection establishment: empty window, `last_detection_time = 0`. -/
def initDetState : DetState := ⟨[], 0⟩

/-- A detection message as built on lines 343-348: the `type` field is the
constructor of `Msg` below; `score` is the probability rounded to three
decimals; `timestamp` is the clock reading converted to milliseconds. -/
structure Detection where
  model : String
  score : ℚ
  timestamp : Int
deriving Repr, DecidableEq

/-- One iteration of the per-model loop body for a single model key `mdl`
whose score is present in the prediction.  `now` is the value the event-loop
clock would return if read; `sendOk` tells whether `websocket.send_json`
would succeed.  Returns the new state, the attempted detection (paired with
whether it was delivered), and whether the clock was actually read. -/
def observe (st : DetState) (mdl : String) (score : ℚ) (now : ℚ) (sendOk : Bool) :
    DetState × Option (Detection × Bool) × Bool :=
  let w := pushScore st.window score
  let avg := avgScore w
  if THRESHOLD < avg ∨ HIGH_THRESHOLD < score then
    let timeSinceLast := now - st.lastDet
    if DEBOUNCE_SECONDS ≤ timeSinceLast then
      let response : Detection := ⟨mdl, round3 score, ratTrunc (now * 1000)⟩
      if sendOk then
        (⟨[], now⟩, some (response, true), true)
      else
        (⟨w, st.lastDet⟩, some (response, false), true)
    else
      (⟨w, st.lastDet⟩, none, true)
  else
    (⟨w, st.lastDet⟩, none, false)

/-- One observation of the per-model loop, with its clock reading and send
outcome supplied explicitly. -/
structure Obs where
  mdl : String
  score : ℚ
  now : ℚ
  sendOk : Bool

/-- The `for mdl in model.models.keys()` loop of lines 314-364, threading the
single shared `DetState` through the observations of one frame. -/
def processFrame : DetState → List Obs → DetState × List (Detection × Bool)
  | st, [] => (st, [])
  | st, o :: rest =>
    let r := observe st o.mdl o.score o.now o.sendOk
    let q := processFrame r.1 rest
    (q.1, r.2.1.toList ++ q.2)

/-! ### Byte decoding (line 287 of `server.py`)

`audio_chunk = np.frombuffer(data, dtype=np.int16)` decodes little-endian
signed 16-bit samples and raises `ValueError` when the byte count is odd. -/

/-- Decode one little-endian signed 16-bit sample from two bytes. -/
def i16ofBytes (b0 b1 : Nat) : Int :=
  let v := b0 + 256 * b1
  if v < 32768 then (v : Int) else (v : Int) - 65536

/-- `np.frombuffer(data, dtype=np.int16)`: all-or-nothing decode of a byte
list into samples; errors on an odd trailing byte. -/
def frombuffer : List Nat → Except String (List Int)
  | [] => Except.ok []
  | [_] => Except.error "buffer size must be a multiple of element size"
  | b0 :: b1 :: rest => (frombuffer rest).map (fun t => i16ofBytes b0 b1 :: t)

/-! ### Frame assembler (lines 290-296 of `server.py`)

`audio_buffer = np.concatenate([audio_buffer, audio_chunk])` followed by
`while len(audio_buffer) >= CHUNK_SIZE:` extracting `audio_buffer[:CHUNK_SIZE]`
and keeping `audio_buffer[CHUNK_SIZE:]`. -/

/-- Repeatedly slice `CHUNK_SIZE`-sample frames off the front of the buffer
while it holds at least that many samples, returning the extracted frames in
order together with the residual buffer. -/
def drain (buf : List Int) : List (List Int) × List Int :=
  if h : CHUNK_SIZE ≤ buf.length then
    let frame := buf.take CHUNK_SIZE
    let r := drain (buf.drop CHUNK_SIZE)
    (frame :: r.1, r.2)
  else
    ([], buf)
termination_by buf.length
decreasing_by
  simp only [CHUNK_SIZE, List.length_drop] at *
  omega

/-- `push` of the frame assembler: append an incoming chunk of samples to the
buffer, then drain all complete frames. -/
def pushChunk (buf chunk : List Int) : List (List Int) × List Int :=
  drain (buf ++ chunk)

/-- Feed a whole sequence of sample chunks through the frame assembler,
starting from a given buffer, collecting every yielded frame. -/
def assembleAll : List Int → List (List Int) → List (List Int) × List Int
  | buf, [] => ([], buf)
  | buf, c :: cs =>
    let r := pushChunk buf c
    let q := assembleAll r.2 cs
    (r.1 ++ q.1, q.2)

/-! ### Amplitude normalizer (lines 298-308 of `server.py`) -/

/-- `np.abs` on an `int16` value: two's-complement negation wraps, so
`np.abs(-32768)` is `-32768` itself. -/
def absI16 (x : Int) : Int := if x = -32768 then -32768 else |x|

/-- `.max()` of a numpy array, modelled on a list of samples (numpy raises on
an empty array; every frame fed to it has `CHUNK_SIZE` samples, so the `0`
default for `[]` is never reached). -/
def listMax : List Int → Int
  | [] => 0
  | x :: xs => xs.foldl max x

/-- Conversion of a float to `int16` as performed by
`.astype(np.int16)`: truncation toward zero, then wraparound into
`[-32768, 32767]` (the C cast used by numpy). -/
def castI16 (q : ℚ) : Int := (ratTrunc q + 32768) % 65536 - 32768

/-- `np.clip(x, -32768, 32767)` on one sample. -/
def clip16 (x : Int) : Int := max (-32768) (min x 32767)

/-- Amplitude normalization of one frame (lines 300-308): compute
`max_amplitude = np.abs(chunk).max()`; when `0 < max_amplitude < 5000`,
boost by `gain = min(10000 / max_amplitude, 3.0)`, convert to `int16` and
clip; otherwise the frame passes through unchanged. -/
def normalize (frame : List Int) : List Int :=
  let max_amplitude := listMax (frame.map absI16)
  if 0 < max_amplitude ∧ max_amplitude < 5000 then
    let gain : ℚ := min (10000 / (max_amplitude : ℚ)) 3
    frame.map (fun s => clip16 (castI16 ((s : ℚ) * gain)))
  else
    frame

/-! ### Session controller (`websocket_endpoint`, lines 255-384) -/

/-- The external scoring engine: its configured model keys and its
`predict` call, which may raise (modelled as `Except.error`). -/
structure Engine where
  keys : List String
  predict : List Int → Except String (List (String × ℚ))

/-- Environment of one session: the shared engine, the stream of values
returned by successive reads of the event-loop clock, and whether the
`n`-th attempted `send_json` of a detection succeeds. -/
structure Env where
  engine : Engine
  clock : ℕ → ℚ
  sendOk : ℕ → Bool

/-- Association-list lookup, modelling `prediction[mdl]` guarded by
`mdl in prediction`. -/
def lookupScore (k : String) : List (String × ℚ) → Option ℚ
  | [] => none
  | (k', v) :: rest => if k' = k then some v else lookupScore k rest

/-- Messages sent to the client: detection events and the error message of
the outer exception handler. -/
inductive Msg where
  | detection (d : Detection)
  | error (message : String)
deriving Repr, DecidableEq

/-- The successfully delivered message of one `observe` outcome (a detection
whose `send_json` failed was not delivered to the client). -/
def sentMsgs : Option (Detection × Bool) → List Msg
  | some (d, true) => [Msg.detection d]
  | _ => []

/-- The `for mdl in model.models.keys()` loop at session level: thread the
shared `DetState` and the clock/send tick through the models whose key is
present in the prediction, collecting the successfully sent messages. -/
def runModels (env : Env) (prediction : List (String × ℚ)) :
    DetState → ℕ → List String → DetState × ℕ × List Msg
  | st, tick, [] => (st, tick, [])
  | st, tick, mdl :: rest =>
    match lookupScore mdl prediction with
    | none => runModels env prediction st tick rest
    | some score =>
      let r := observe st mdl score (env.clock tick) (env.sendOk tick)
      let tick' := if r.2.2 then tick + 1 else tick
      let q := runModels env prediction r.1 tick' rest
      (q.1, q.2.1, sentMsgs r.2.1 ++ q.2.2)

/-- The `while len(audio_buffer) >= CHUNK_SIZE` loop (lines 293-372): extract
one frame, normalize it, call `model.predict` (whose exception propagates out
of the loop), run the per-model loop, and continue on the shortened buffer.
Messages sent before an exception are reported alongside the failure. -/
def processBuffer (env : Env) (buf : List Int) (st : DetState) (tick : ℕ) :
    List Msg × Except String (List Int × DetState × ℕ) :=
  if h : CHUNK_SIZE ≤ buf.length then
    let chunk := buf.take CHUNK_SIZE
    let rest := buf.drop CHUNK_SIZE
    let chunkN := normalize chunk
    match env.engine.predict chunkN with
    | Except.error e => ([], Except.error e)
    | Except.ok prediction =>
      let r := runModels env prediction st tick env.engine.keys
      let q := processBuffer env rest r.1 r.2.1
      (r.2.2 ++ q.1, q.2)
  else
    ([], Except.ok (buf, st, tick))
termination_by buf.length
decreasing_by
  simp only [CHUNK_SIZE, List.length_drop] at *
  omega

/-- Per-session mutable state owned by `websocket_endpoint`: the sample
buffer, the detection state, and the position in the clock/send streams. -/
structure Sess where
  buffer : List Int
  det : DetState
  tick : ℕ
deriving Repr, DecidableEq

/-- Session state right after `websocket.accept()`: empty buffer, empty score
window, `last_detection_time = 0`. -/
def initSess : Sess := ⟨[], initDetState, 0⟩

/-- The `while True` receive loop (lines 282-372) over the finite list of
chunks delivered before the client disconnects.  Each chunk is decoded with
`frombuffer` (an odd byte count raises), appended to the buffer, and the
buffer is drained through `processBuffer`.  Any raised exception aborts the
loop; messages sent before it are reported alongside the failure. -/
def runSession (env : Env) : Sess → List (List Nat) → List Msg × Except String Sess
  | s, [] => ([], Except.ok s)
  | s, data :: moreChunks =>
    match frombuffer data with
    | Except.error e => ([], Except.error e)
    | Except.ok audio_chunk =>
      let r := processBuffer env (s.buffer ++ audio_chunk) s.det s.tick
      match r.2 with
      | Except.error e => (r.1, Except.error e)
      | Except.ok (buf', st', tick') =>
        let q := runSession env ⟨buf', st', tick'⟩ moreChunks
        (r.1 ++ q.1, q.2)

/-- The complete `websocket_endpoint` handler: a `WebSocketDisconnect` (end of
the chunk stream) closes the session silently, while any other exception is
reported to the client as a `Msg.error` message (lines 374-384) and tears the
session down, discarding all buffered state. -/
def websocketOutcome (env : Env) (chunks : List (List Nat)) : List Msg :=
  match runSession env initSess chunks with
  | (msgs, Except.ok _) => msgs
  | (msgs, Except.error e) => msgs ++ [Msg.error e]

/-! ### Synthesis gateway (`tts_endpoint`, lines 104-253) -/

/-- The module-level `mars5_model` handle: `none` models Python `None`
(not yet initialized), `failed` models the `False` sentinel written after a
load failure, and `loaded hasRef` models a loaded engine together with
whether reference audio (and its transcript) is available. -/
inductive Mars5 where
  | unloaded
  | failed
  | loaded (hasRef : Bool)
deriving Repr, DecidableEq

/-- `get_mars5_model()`: lazily initialize the engine; a load attempt either
succeeds (recording whether reference audio was found) or marks the handle
failed.  An already-resolved handle is returned unchanged. -/
def getMars5 (st : Mars5) (loadOk refFound : Bool) : Mars5 :=
  match st with
  | Mars5.unloaded => if loadOk then Mars5.loaded refFound else Mars5.failed
  | s => s

/-- Python's `str.strip()` with no arguments: remove leading and trailing
whitespace. -/
def pyStrip (s : String) : String :=
  String.mk (((s.data.dropWhile Char.isWhitespace).reverse.dropWhile
    Char.isWhitespace).reverse)

/-- A `/tts` request body: `text` and the optional `deep_clone` flag. -/
structure TtsReq where
  text : String
  deep_clone : Bool
deriving Repr, DecidableEq

/-- Outcome of `tts_endpoint`: a JSON payload with the generated audio, or an
HTTP error with its status code and detail string. -/
inductive TtsResp where
  | ok (audio : List Int) (format : String) (sample_rate : ℕ)
  | err (status : ℕ) (detail : String)
deriving Repr, DecidableEq

/-- `tts_endpoint` (lines 129-253).  `genResult` is the outcome of the
engine's `model.tts` call when it is reached.  The returned flag records
whether the synthesis engine was invoked.  Order of checks as in the source:
resolve the lazy handle, fail 503 when it is unavailable, fail 400 on empty
or whitespace-only text, then generate (a generation exception is re-raised
and surfaces as a 500).  The handler shares no state with any detection
session: its result depends only on its own arguments. -/
def tts_endpoint (st : Mars5) (loadOk refFound : Bool) (req : TtsReq)
    (sampleRate : ℕ) (genResult : Except String (List Int)) : TtsResp × Bool :=
  match getMars5 st loadOk refFound with
  | Mars5.unloaded => (TtsResp.err 503 "MARS5 TTS model not available", false)
  | Mars5.failed => (TtsResp.err 503 "MARS5 TTS model not available", false)
  | Mars5.loaded _hasRef =>
    if req.text = "" ∨ pyStrip req.text = "" then
      (TtsResp.err 400 "Text is required", false)
    else
      match genResult with
      | Except.error e => (TtsResp.err 500 ("TTS generation failed: " ++ e), true)
      | Except.ok audio => (TtsResp.ok audio "wav" sampleRate, true)

/-- A concrete engine whose `predict` always raises, for exercising the
per-frame failure path. -/
def failEngine : Engine := ⟨["hey_jarvis"], fun _ => Except.error "engine exploded"⟩

/-- A concrete session environment built on `failEngine` with a constant
clock and always-successful sends. -/
def failEnv : Env := ⟨failEngine, fun _ => 0, fun _ => true⟩

/-! ## Helper lemmas -/

theorem pushScore_nil (s : ℚ) : pushScore [] s = [s] := by
  simp [pushScore, MAX_WINDOW_SIZE]

theorem pushScore_ne_nil (w : List ℚ) (s : ℚ) : pushScore w s ≠ [] := by
  simp only [pushScore]
  split
  · rename_i h
    simp only [List.length_append, List.length_singleton, MAX_WINDOW_SIZE] at h
    intro hc
    have := congrArg List.length hc
    simp only [List.length_drop, List.length_append, List.length_singleton,
      List.length_nil] at this
    omega
  · simp

theorem avgScore_of_ne_nil (w : List ℚ) (h : w ≠ []) :
    avgScore w = w.sum / (w.length : ℚ) := by
  simp [avgScore, List.isEmpty_iff, h]

theorem pushScore_length (w : List ℚ) (s : ℚ) (h : w.length ≤ MAX_WINDOW_SIZE) :
    (pushScore w s).length ≤ MAX_WINDOW_SIZE := by
  simp only [pushScore]
  split <;> rename_i h' <;>
    simp only [List.length_drop, List.length_append, List.length_singleton] at h' ⊢ <;>
    omega

/-! ## Claims about the score smoother -/

/-- Claim C6: the score window never exceeds 5 entries (both along any
sequence of observed scores and across a single push); the moving average
computed after a push is the arithmetic mean of the window's current
contents; a push at capacity evicts the oldest entry first; and after a reset
(empty window) the next score becomes the sole element, whose average is the
score itself. -/
theorem smoother_spec (w : List ℚ) (s : ℚ) (hw : w.length ≤ MAX_WINDOW_SIZE) :
    (pushScore w s).length ≤ MAX_WINDOW_SIZE ∧
    avgScore (pushScore w s) = (pushScore w s).sum / ((pushScore w s).length : ℚ) ∧
    (w.length = MAX_WINDOW_SIZE → pushScore w s = w.drop 1 ++ [s]) ∧
    (∀ scores : List ℚ, (scores.foldl pushScore []).length ≤ MAX_WINDOW_SIZE) ∧
    pushScore [] s = [s] ∧ avgScore (pushScore [] s) = s := by
  refine ⟨pushScore_length w s hw, avgScore_of_ne_nil _ (pushScore_ne_nil w s), ?_, ?_, ?_, ?_⟩
  · intro hfull
    simp only [pushScore]
    rw [if_pos ?_]
    · cases w with
      | nil => simp [MAX_WINDOW_SIZE] at hfull
      | cons a t => simp
    · simp only [List.length_append, List.length_singleton]
      omega
  · intro scores
    have key : ∀ (l : List ℚ) (w0 : List ℚ), w0.length ≤ MAX_WINDOW_SIZE →
        (l.foldl pushScore w0).length ≤ MAX_WINDOW_SIZE := by
      intro l
      induction l with
      | nil => intro w0 h0; simpa using h0
      | cons a t ih =>
        intro w0 h0
        simpa using ih (pushScore w0 a) (pushScore_length w0 a h0)
    exact key scores [] (by simp [MAX_WINDOW_SIZE])
  · exact pushScore_nil s
  · rw [pushScore_nil]
    simp [avgScore]

/-- Witness for `smoother_spec` at the full window `[1, 2, 3, 4, 5]`. -/
theorem smoother_spec_witness :
    pushScore [1, 2, 3, 4, 5] 6 = [2, 3, 4, 5, 6] ∧
    avgScore (pushScore [] (7/10)) = 7/10 := by
  have h := smoother_spec [1, 2, 3, 4, 5] 6 (by simp [MAX_WINDOW_SIZE])
  refine ⟨?_, (smoother_spec [] (7/10) (by simp [MAX_WINDOW_SIZE])).2.2.2.2.2⟩
  have := h.2.2.1 (by simp [MAX_WINDOW_SIZE])
  simpa using this

/-! ## Claims about the frame assembler -/

theorem drain_flatten (buf : List Int) :
    (drain buf).1.flatten ++ (drain buf).2 = buf := by
  rw [drain]
  split
  · rename_i h
    have ih := drain_flatten (buf.drop CHUNK_SIZE)
    simp only [List.flatten_cons, List.append_assoc, ih, List.take_append_drop]
  · rfl
termination_by buf.length
decreasing_by
  simp only [CHUNK_SIZE, List.length_drop] at *
  omega

theorem drain_residual (buf : List Int) :
    (drain buf).2.length < CHUNK_SIZE := by
  rw [drain]
  split
  · rename_i h
    exact drain_residual (buf.drop CHUNK_SIZE)
  · rename_i h
    simp only [CHUNK_SIZE] at h ⊢
    omega
termination_by buf.length
decreasing_by
  simp only [CHUNK_SIZE, List.length_drop] at *
  omega

theorem drain_frame_sizes (buf : List Int) :
    ∀ f ∈ (drain buf).1, f.length = CHUNK_SIZE := by
  rw [drain]
  split
  · rename_i h
    intro f hf
    simp only [List.mem_cons] at hf
    rcases hf with rfl | hf
    · simp only [List.length_take]
      omega
    · exact drain_frame_sizes (buf.drop CHUNK_SIZE) f hf
  · intro f hf
    simp at hf
termination_by buf.length
decreasing_by
  simp only [CHUNK_SIZE, List.length_drop] at *
  omega

theorem assembleAll_flatten (buf : List Int) (cs : List (List Int)) :
    (assembleAll buf cs).1.flatten ++ (assembleAll buf cs).2 = buf ++ cs.flatten := by
  induction cs generalizing buf with
  | nil => simp [assembleAll]
  | cons c t ih =>
    simp only [assembleAll, List.flatten_cons, List.flatten_append, List.append_assoc]
    rw [ih, pushChunk, ← List.append_assoc, drain_flatten]
    simp

theorem assembleAll_residual (buf : List Int) (cs : List (List Int))
    (h : buf.length < CHUNK_SIZE) :
    (assembleAll buf cs).2.length < CHUNK_SIZE := by
  induction cs generalizing buf with
  | nil => simpa [assembleAll] using h
  | cons c t ih =>
    simp only [assembleAll]
    exact ih _ (drain_residual _)

/-- Claim C5: for every sequence of inbound sample chunks, frame extraction
neither loses nor reorders samples — the concatenation of all yielded frames
followed by the final residual buffer equals the concatenation of the input
chunks, every yielded frame holds exactly `CHUNK_SIZE` samples, and after
each chunk is drained (equivalently, after any prefix of the chunk sequence)
the residual buffer holds fewer than `CHUNK_SIZE` samples. -/
theorem frame_assembly_lossless (chunks : List (List Int)) :
    (assembleAll [] chunks).1.flatten ++ (assembleAll [] chunks).2 = chunks.flatten ∧
    (∀ f ∈ (assembleAll [] chunks).1, f.length = CHUNK_SIZE) ∧
    (∀ k, (assembleAll [] (chunks.take k)).2.length < CHUNK_SIZE) := by
  have sizes : ∀ (buf : List Int) (cs : List (List Int)),
      ∀ f ∈ (assembleAll buf cs).1, f.length = CHUNK_SIZE := by
    intro buf cs
    induction cs generalizing buf with
    | nil => simp [assembleAll]
    | cons c t ih =>
      intro f hf
      simp only [assembleAll, List.mem_append] at hf
      rcases hf with hf | hf
      · exact drain_frame_sizes (buf ++ c) f hf
      · exact ih _ f hf
  refine ⟨by simpa using assembleAll_flatten [] chunks, sizes [] chunks, ?_⟩
  intro k
  exact assembleAll_residual [] _ (by simp [CHUNK_SIZE])

/-! ## Claims about the detection decider -/

/-- Claim C1 (amended): with deliverable sends, an observation emits a
Detection Event exactly when `(moving average > 0.35 ∨ score > 0.5)` holds
and `now - last_detection_time ≥ 1.5`, where `last_detection_time` starts at
`0` (there is no separate exemption for "no event emitted yet": before the
first emission the condition demands a clock reading of at least 1.5).  An
emission clears the score window and sets the debounce clock to `now`; an
observation that does not emit — in particular one suppressed by the
debounce — leaves the pushed window in place and the debounce clock
untouched. -/
theorem decider_fires_iff (st : DetState) (mdl : String) (score now : ℚ) :
    ((∃ d, (observe st mdl score now true).2.1 = some (d, true)) ↔
      ((THRESHOLD < avgScore (pushScore st.window score) ∨ HIGH_THRESHOLD < score) ∧
        DEBOUNCE_SECONDS ≤ now - st.lastDet)) ∧
    ((∃ d, (observe st mdl score now true).2.1 = some (d, true)) →
      (observe st mdl score now true).1 = ⟨[], now⟩) ∧
    ((observe st mdl score now true).2.1 = none →
      (observe st mdl score now true).1 = ⟨pushScore st.window score, st.lastDet⟩) := by
  refine ⟨?_, ?_, ?_⟩ <;> simp only [observe] <;> split_ifs with h1 h2 <;> simp_all

/-- Counterexample to claim C1 as stated: in a fresh session (empty window,
no event emitted yet, `last_detection_time = 0`) an observation whose score
`0.9` crosses the high threshold at clock reading `1.0` emits nothing,
because the code tests `now - 0 ≥ 1.5` instead of exempting the
never-emitted case. -/
theorem decider_fresh_session_cex :
    initDetState = ⟨[], 0⟩ ∧ HIGH_THRESHOLD < 9/10 ∧
    (observe initDetState "hey_jarvis" (9/10) 1 true).2.1 = none := by
  norm_num [observe, pushScore, avgScore, THRESHOLD, HIGH_THRESHOLD,
    DEBOUNCE_SECONDS, MAX_WINDOW_SIZE, initDetState]

/-- Claim C2 (amended): all wake phrases of a session share one score window
and one debounce clock.  Consequence proved here: within one frame, if the
first phrase emits at clock reading `t₁`, a second phrase whose score also
crosses a threshold is suppressed whenever its clock reading `t₂` satisfies
`t₂ - t₁ < 1.5` — its elapsed time is measured against the emission the
first phrase just made — and the final shared window holds exactly the
second phrase's score (the first phrase's emission cleared it for all). -/
theorem shared_debounce_suppresses (st : DetState) (m₁ m₂ : String)
    (s₁ s₂ t₁ t₂ : ℚ)
    (hfire₁ : THRESHOLD < avgScore (pushScore st.window s₁) ∨ HIGH_THRESHOLD < s₁)
    (hdeb₁ : DEBOUNCE_SECONDS ≤ t₁ - st.lastDet)
    (hfire₂ : THRESHOLD < avgScore [s₂] ∨ HIGH_THRESHOLD < s₂)
    (hdeb₂ : t₂ - t₁ < DEBOUNCE_SECONDS) :
    processFrame st [⟨m₁, s₁, t₁, true⟩, ⟨m₂, s₂, t₂, true⟩] =
      (⟨[s₂], t₁⟩, [(⟨m₁, round3 s₁, ratTrunc (t₁ * 1000)⟩, true)]) := by
  have e1 : observe st m₁ s₁ t₁ true =
      (⟨[], t₁⟩, some (⟨m₁, round3 s₁, ratTrunc (t₁ * 1000)⟩, true), true) := by
    simp only [observe]
    rw [if_pos hfire₁, if_pos hdeb₁]
    simp
  have e2 : observe ⟨[], t₁⟩ m₂ s₂ t₂ true = (⟨[s₂], t₁⟩, none, true) := by
    simp only [observe, pushScore_nil]
    rw [if_pos hfire₂, if_neg (not_le.mpr (by simpa using hdeb₂))]
  simp only [processFrame, e1, e2]
  simp

/-- Witness for `shared_debounce_suppresses`: two phrases both scoring 0.9
in the same frame at clock reading 10; only the first emits. -/
theorem shared_debounce_suppresses_witness :
    processFrame initDetState
        [⟨"alpha", 9/10, 10, true⟩, ⟨"beta", 9/10, 10, true⟩] =
      (⟨[9/10], 10⟩, [(⟨"alpha", round3 (9/10), ratTrunc (10 * 1000)⟩, true)]) := by
  refine shared_debounce_suppresses initDetState "alpha" "beta" (9/10) (9/10) 10 10 ?_ ?_ ?_ ?_ <;>
    norm_num [pushScore, avgScore, THRESHOLD, HIGH_THRESHOLD, DEBOUNCE_SECONDS,
      MAX_WINDOW_SIZE, initDetState]

/-- Counterexample to claim C2 as stated: with two configured phrases in one
frame, phrase `"beta"` alone would emit, but after phrase `"alpha"` emits in
the same frame, `"beta"` is suppressed — `"alpha"`'s emission changed the
debounce clock used by `"beta"`, so the phrases do not have independent
state. -/
theorem shared_state_cex :
    (processFrame initDetState [⟨"beta", 9/10, 10, true⟩]).2.map (fun p => p.1.model) =
      ["beta"] ∧
    (processFrame initDetState
        [⟨"alpha", 9/10, 10, true⟩, ⟨"beta", 9/10, 10, true⟩]).2.map (fun p => p.1.model) =
      ["alpha"] := by
  norm_num [processFrame, observe, pushScore, avgScore, THRESHOLD, HIGH_THRESHOLD,
    DEBOUNCE_SECONDS, MAX_WINDOW_SIZE, initDetState]

/-- Claim C8: every attempted Detection Event carries exactly the phrase
name, the score rounded to three decimals, and the clock reading in
milliseconds; and the firing decision uses the full-precision score, not the
rounded one — both in general (the firing condition is a predicate on the
raw score) and concretely: scores 0.5004 and 0.4996 round to the same value
0.5 yet only the former fires from a window of four zeros. -/
theorem detection_message_spec :
    (∀ (st : DetState) (mdl : String) (score now : ℚ) (ok : Bool)
        (d : Detection) (b : Bool),
      (observe st mdl score now ok).2.1 = some (d, b) →
        d = ⟨mdl, round3 score, ratTrunc (now * 1000)⟩) ∧
    (∀ (st : DetState) (mdl : String) (score now : ℚ) (ok : Bool),
      ((observe st mdl score now ok).2.1).isSome = true ↔
        ((THRESHOLD < avgScore (pushScore st.window score) ∨ HIGH_THRESHOLD < score) ∧
          DEBOUNCE_SECONDS ≤ now - st.lastDet)) ∧
    (round3 (5004/10000) = round3 (4996/10000) ∧
      ((observe ⟨[0, 0, 0, 0], 0⟩ "hey_jarvis" (5004/10000) 2 true).2.1).isSome = true ∧
      ((observe ⟨[0, 0, 0, 0], 0⟩ "hey_jarvis" (4996/10000) 2 true).2.1).isSome = false) := by
  refine ⟨?_, ?_, ?_, ?_, ?_⟩
  · intro st mdl score now ok d b h
    simp only [observe] at h
    split_ifs at h <;> simp_all
  · intro st mdl score now ok
    simp only [observe]
    split_ifs <;> simp_all
  · norm_num [round3, roundHalfEven]
  · norm_num [observe, pushScore, avgScore, THRESHOLD, HIGH_THRESHOLD,
      DEBOUNCE_SECONDS, MAX_WINDOW_SIZE]
  · norm_num [observe, pushScore, avgScore, THRESHOLD, HIGH_THRESHOLD,
      DEBOUNCE_SECONDS, MAX_WINDOW_SIZE]

/-- Claim C10: when the send of a fired Detection Event fails, the detection
state is untouched — the window keeps the pushed score and the debounce
clock keeps its old value, the observation returns normally (the session
keeps running), and a later observation that crosses a threshold while the
debounce clock is still old fires and delivers again. -/
theorem send_failure_atomic (st : DetState) (mdl : String) (score now : ℚ)
    (hfire : THRESHOLD < avgScore (pushScore st.window score) ∨ HIGH_THRESHOLD < score)
    (hdeb : DEBOUNCE_SECONDS ≤ now - st.lastDet) :
    observe st mdl score now false =
      (⟨pushScore st.window score, st.lastDet⟩,
        some (⟨mdl, round3 score, ratTrunc (now * 1000)⟩, false), true) ∧
    (∀ (score' now' : ℚ),
      (THRESHOLD < avgScore (pushScore (pushScore st.window score) score') ∨
        HIGH_THRESHOLD < score') →
      DEBOUNCE_SECONDS ≤ now' - st.lastDet →
      ∃ d, (observe (observe st mdl score now false).1 mdl score' now' true).2.1 =
        some (d, true)) := by
  have hobs : observe st mdl score now false =
      (⟨pushScore st.window score, st.lastDet⟩,
        some (⟨mdl, round3 score, ratTrunc (now * 1000)⟩, false), true) := by
    simp only [observe]
    rw [if_pos hfire, if_pos hdeb]
    rfl
  refine ⟨hobs, ?_⟩
  intro score' now' hfire' hdeb'
  rw [hobs]
  simp only [observe]
  rw [if_pos hfire', if_pos hdeb']
  exact ⟨_, rfl⟩

/-- Witness for `send_failure_atomic`: a failed send at clock reading 2
leaves the state `⟨[0.9], 0⟩`, and the retry at clock reading 2.2 delivers. -/
theorem send_failure_atomic_witness :
    observe initDetState "hey_jarvis" (9/10) 2 false =
      (⟨pushScore initDetState.window (9/10), initDetState.lastDet⟩,
        some (⟨"hey_jarvis", round3 (9/10), ratTrunc (2 * 1000)⟩, false), true) ∧
    ∃ d, (observe (observe initDetState "hey_jarvis" (9/10) 2 false).1
        "hey_jarvis" (9/10) (22/10) true).2.1 = some (d, true) := by
  have h := send_failure_atomic initDetState "hey_jarvis" (9/10) 2
    (by norm_num [pushScore, avgScore, THRESHOLD, HIGH_THRESHOLD, MAX_WINDOW_SIZE, initDetState])
    (by norm_num [DEBOUNCE_SECONDS, initDetState])
  exact ⟨h.1, h.2 (9/10) (22/10)
    (by norm_num [pushScore, avgScore, THRESHOLD, HIGH_THRESHOLD, MAX_WINDOW_SIZE, initDetState])
    (by norm_num [DEBOUNCE_SECONDS, initDetState])⟩

/-! ## Claims about the session-level error handling -/

theorem frombuffer_odd : ∀ (data : List Nat), data.length % 2 = 1 →
    frombuffer data = Except.error "buffer size must be a multiple of element size"
  | [], h => by simp at h
  | [_], _ => rfl
  | b0 :: b1 :: rest, h => by
    have hr : rest.length % 2 = 1 := by
      simp only [List.length_cons] at h
      omega
    rw [frombuffer, frombuffer_odd rest hr]
    rfl

theorem frombuffer_replicate_zero :
    ∀ n : ℕ, frombuffer (List.replicate (2 * n) 0) = Except.ok (List.replicate n 0)
  | 0 => rfl
  | n + 1 => by
    have h2 : 2 * (n + 1) = (2 * n) + 1 + 1 := by omega
    rw [h2, List.replicate_succ, List.replicate_succ, frombuffer,
      frombuffer_replicate_zero n, List.replicate_succ]
    rfl

theorem foldl_max_self (x : Int) : ∀ n : ℕ, List.foldl max x (List.replicate n x) = x
  | 0 => rfl
  | n + 1 => by
    rw [List.replicate_succ, List.foldl_cons, max_self]
    exact foldl_max_self x n

theorem listMax_replicate_zero (n : ℕ) : listMax (List.replicate n 0) = 0 := by
  cases n with
  | zero => rfl
  | succ m =>
    rw [List.replicate_succ, listMax]
    exact foldl_max_self 0 m

theorem normalize_replicate_zero (n : ℕ) :
    normalize (List.replicate n 0) = List.replicate n 0 := by
  have habs : absI16 0 = 0 := by simp [absI16]
  simp only [normalize, List.map_replicate, habs, listMax_replicate_zero]
  simp

/-- Claim C3 (amended): a failure raised by the scoring engine on a frame is
not confined to that frame — the exception propagates out of the frame loop,
the session sends one error message to the client and terminates, and the
buffered state is discarded; no subsequent chunk is processed. -/
theorem engine_failure_fatal (env : Env) (s : Sess) (data : List Nat)
    (samples : List Int) (e : String) (rest : List (List Nat))
    (hdec : frombuffer data = Except.ok samples)
    (hlen : CHUNK_SIZE ≤ (s.buffer ++ samples).length)
    (hfail : env.engine.predict (normalize ((s.buffer ++ samples).take CHUNK_SIZE)) =
      Except.error e) :
    runSession env s (data :: rest) = ([], Except.error e) ∧
    (s = initSess → websocketOutcome env (data :: rest) = [Msg.error e]) := by
  have hpb : processBuffer env (s.buffer ++ samples) s.det s.tick =
      ([], Except.error e) := by
    rw [processBuffer, dif_pos hlen]
    simp only [hfail]
  have h1 : runSession env s (data :: rest) = ([], Except.error e) := by
    simp only [runSession, hdec, hpb]
  refine ⟨h1, ?_⟩
  intro hs
  rw [websocketOutcome, ← hs, h1]
  rfl

/-- Witness for `engine_failure_fatal`: a fresh session receiving one
2560-byte chunk of zeros with an engine whose `predict` raises. -/
theorem engine_failure_fatal_witness :
    runSession failEnv initSess [List.replicate 2560 0] =
      ([], Except.error "engine exploded") ∧
    websocketOutcome failEnv [List.replicate 2560 0] = [Msg.error "engine exploded"] := by
  have h2 : (2560 : ℕ) = 2 * 1280 := by norm_num
  have h := engine_failure_fatal failEnv initSess (List.replicate 2560 0)
    (List.replicate 1280 0) "engine exploded" []
    (by rw [h2]; exact frombuffer_replicate_zero 1280)
    (by simp only [initSess, List.nil_append, List.length_replicate, CHUNK_SIZE]; omega)
    rfl
  exact ⟨h.1, h.2 rfl⟩

/-- Counterexample to claim C3 as stated: with an engine whose `predict`
raises, a session that receives two full frames of audio does not drop the
first frame and continue — it emits a single error message and terminates
before ever touching the second chunk, discarding its state. -/
theorem engine_failure_cex :
    runSession failEnv initSess [List.replicate 2560 0, List.replicate 2560 0] =
      ([], Except.error "engine exploded") ∧
    websocketOutcome failEnv [List.replicate 2560 0, List.replicate 2560 0] =
      [Msg.error "engine exploded"] := by
  have h2 : (2560 : ℕ) = 2 * 1280 := by norm_num
  have hdec : frombuffer (List.replicate 2560 0) =
      Except.ok (List.replicate 1280 0) := by
    rw [h2]; exact frombuffer_replicate_zero 1280
  have hpb : processBuffer failEnv (([] : List Int) ++ List.replicate 1280 0)
      initDetState 0 = ([], Except.error "engine exploded") := by
    rw [processBuffer,
      dif_pos (by simp only [List.nil_append, List.length_replicate, CHUNK_SIZE]; omega)]
    rfl
  have h1 : runSession failEnv initSess
      [List.replicate 2560 0, List.replicate 2560 0] =
      ([], Except.error "engine exploded") := by
    simp only [runSession, hdec, initSess]
    simp only [List.nil_append] at hpb ⊢
    rw [hpb]
  refine ⟨h1, ?_⟩
  rw [websocketOutcome, h1]
  rfl

/-- Claim C4 (amended): an inbound chunk whose byte count is odd makes
`np.frombuffer` raise; the exception is fatal to the session — an error
message is sent and the session terminates, without buffering the partial
byte for later chunks. -/
theorem odd_chunk_fatal (env : Env) (s : Sess) (data : List Nat)
    (rest : List (List Nat)) (hodd : data.length % 2 = 1) :
    runSession env s (data :: rest) =
      ([], Except.error "buffer size must be a multiple of element size") ∧
    websocketOutcome env (data :: rest) =
      [Msg.error "buffer size must be a multiple of element size"] := by
  have hf := frombuffer_odd data hodd
  have h1 : ∀ s' : Sess, runSession env s' (data :: rest) =
      ([], Except.error "buffer size must be a multiple of element size") := by
    intro s'
    simp only [runSession, hf]
  refine ⟨h1 s, ?_⟩
  rw [websocketOutcome, h1 initSess]
  rfl

/-- Witness for `odd_chunk_fatal`: a single one-byte chunk. -/
theorem odd_chunk_fatal_witness :
    runSession failEnv initSess [[0]] =
      ([], Except.error "buffer size must be a multiple of element size") ∧
    websocketOutcome failEnv [[0]] =
      [Msg.error "buffer size must be a multiple of element size"] :=
  odd_chunk_fatal failEnv initSess [0] [] (by simp)

/-- Counterexample to claim C4 as stated: a one-byte chunk is by itself
fatal — the session answers with an error message and terminates, and a
well-formed follow-up chunk is never processed (nothing was buffered for
retry). -/
theorem odd_chunk_cex :
    websocketOutcome failEnv [[0], List.replicate 2560 0] =
      [Msg.error "buffer size must be a multiple of element size"] ∧
    runSession failEnv initSess [[0], List.replicate 2560 0] =
      ([], Except.error "buffer size must be a multiple of element size") := by
  constructor
  · rw [websocketOutcome]
    simp only [runSession, frombuffer]
    rfl
  · simp only [runSession, frombuffer]

/-! ## Claims about the amplitude normalizer -/

/-- Claim C7 (code bug): the peak used by the normalizer is computed with
numpy's wrapping `int16` absolute value, under which `abs(-32768) = -32768`.
A frame containing the most negative sample together with a small nonzero
sample has true peak `32768 ≥ 5000` and should pass through unchanged per the
claim, but the code computes peak `100`, enters the quiet-boost branch with
gain `3`, and rewrites the frame — its second sample becomes `300`. -/
theorem normalize_wrap_bug :
    (5000 : Int) ≤ |(-32768 : Int)| ∧
    normalize [-32768, 100] ≠ [-32768, 100] ∧
    (normalize [-32768, 100]).getD 1 0 = 300 := by
  have he : normalize [-32768, 100] = [-32768, 300] := by
    have hceil : ⌈(-98304 : ℚ)⌉ = (-98304 : ℤ) := by
      exact_mod_cast Int.ceil_intCast (-98304 : ℤ)
    norm_num [normalize, absI16, listMax, castI16, clip16, ratTrunc,
      max_def, min_def, hceil]
  refine ⟨by norm_num, ?_, by rw [he]; rfl⟩
  rw [he]
  simp

/-! ## Claims about the synthesis gateway -/

/-- Claim C9 (amended): when the synthesis engine handle resolves to a
loaded engine, empty or whitespace-only text is rejected with a 400
client-error response before the engine's generation call is invoked; when
the handle is failed (or somehow still unresolved), every request — empty
text included — receives a 503 ServiceUnavailable response, again without
invoking the engine; and the engine is only ever invoked on a loaded handle
with nonempty trimmed text.  The handler shares no state with detection
sessions: its result is a function of its own arguments alone. -/
theorem tts_gateway_spec (st : Mars5) (loadOk refFound : Bool) (req : TtsReq)
    (sr : ℕ) (g : Except String (List Int)) :
    (getMars5 st loadOk refFound = Mars5.failed →
      tts_endpoint st loadOk refFound req sr g =
        (TtsResp.err 503 "MARS5 TTS model not available", false)) ∧
    (∀ hr : Bool, getMars5 st loadOk refFound = Mars5.loaded hr →
      (req.text = "" ∨ pyStrip req.text = "") →
      tts_endpoint st loadOk refFound req sr g =
        (TtsResp.err 400 "Text is required", false)) ∧
    ((tts_endpoint st loadOk refFound req sr g).2 = true →
      ¬(req.text = "" ∨ pyStrip req.text = "") ∧
        ∃ hr, getMars5 st loadOk refFound = Mars5.loaded hr) := by
  refine ⟨?_, ?_, ?_⟩
  · intro h
    simp only [tts_endpoint, h]
  · intro hr h htext
    simp only [tts_endpoint, h, if_pos htext]
  · intro h
    rcases hg : getMars5 st loadOk refFound with _ | _ | hr
    · simp only [tts_endpoint, hg] at h
      simp at h
    · simp only [tts_endpoint, hg] at h
      simp at h
    · by_cases ht : req.text = "" ∨ pyStrip req.text = ""
      · simp only [tts_endpoint, hg, if_pos ht] at h
        simp at h
      · exact ⟨ht, hr, rfl⟩

/-- Witness for `tts_gateway_spec`: a loaded engine rejects a
whitespace-only request with 400 and does not invoke generation. -/
theorem tts_gateway_spec_witness :
    tts_endpoint (Mars5.loaded true) true true ⟨"   ", false⟩ 24000 (Except.ok []) =
      (TtsResp.err 400 "Text is required", false) :=
  (tts_gateway_spec (Mars5.loaded true) true true ⟨"   ", false⟩ 24000
    (Except.ok [])).2.1 true rfl (Or.inr (by decide))

/-- Counterexample to claim C9 as stated: a request whose text is empty is
not always rejected with a client-error status — when the engine is
unavailable the 503 check runs first, so the empty-text request receives a
503 ServiceUnavailable, which is not in the 4xx client-error class. -/
theorem tts_unavailable_empty_text_cex :
    tts_endpoint Mars5.failed true true ⟨"", false⟩ 24000 (Except.ok []) =
      (TtsResp.err 503 "MARS5 TTS model not available", false) ∧
    ¬(400 ≤ 503 ∧ 503 < 500) := by
  exact ⟨rfl, by norm_num⟩

end WakeWord
